import Mathlib

/-
Verification of the job-tracking core of the faster-whisper-api repository.

The embedding mirrors src/youtube_jobs.py (job store and asynchronous
pipeline), src/whisper_api.py (API-key check and the synchronous upload
endpoint) and the data they manipulate.  File system effects are made
explicit: the persisted status mapping job_status.json is an optional
association list (none when the file does not exist), transcripts and
downloaded media files are tracked in an explicit state record, and the
external collaborators (media fetcher, transcription model, file writes)
are oracles of type Except that either yield a value or fail with an
exception message, matching the try/except structure of the Python code.
-/

/-- The contents of job_status.json: a mapping from job id to status
string, in insertion order, as a JSON object parsed by json.load. -/
abbrev StatusMap := List (String × String)

/-- Python dict assignment d[k] = v: replace the first binding of k if
present, otherwise append a new binding at the end. -/
def dictSet : StatusMap → String → String → StatusMap
  | [], k, v => [(k, v)]
  | (k0, v0) :: rest, k, v =>
    if k0 = k then (k, v) :: rest else (k0, v0) :: dictSet rest k v

/-- Python dict lookup d.get(k): the first binding of k, if any. -/
def dictGet : StatusMap → String → Option String
  | [], _ => none
  | (k0, v0) :: rest, k => if k0 = k then some v0 else dictGet rest k

/-- load_status (youtube_jobs.py lines 10-14): parse the status file if it
exists, otherwise return the empty mapping. -/
def load_status (file : Option StatusMap) : StatusMap :=
  file.getD []

/-- update_job_status (youtube_jobs.py lines 20-24): load the mapping, set
the entry for job_id, save the whole mapping back.  The result is the new
contents of the status file. -/
def update_job_status (file : Option StatusMap) (job_id state : String) :
    StatusMap :=
  dictSet (load_status file) job_id state

/-- get_job_status (youtube_jobs.py lines 26-27):
load_status().get(job_id, "not_found"). -/
def get_job_status (file : Option StatusMap) (job_id : String) : String :=
  (dictGet (load_status file) job_id).getD "not_found"

theorem dictGet_dictSet_self (m : StatusMap) (k v : String) :
    dictGet (dictSet m k v) k = some v := by
  induction m with
  | nil => simp [dictSet, dictGet]
  | cons hd tl ih =>
    obtain ⟨k0, v0⟩ := hd
    by_cases h : k0 = k
    · simp [dictSet, dictGet, h]
    · simp [dictSet, dictGet, h, ih]

theorem dictGet_dictSet_ne (m : StatusMap) (k v k' : String) (h : k' ≠ k) :
    dictGet (dictSet m k v) k' = dictGet m k' := by
  induction m with
  | nil => simp [dictSet, dictGet, Ne.symm h]
  | cons hd tl ih =>
    obtain ⟨k0, v0⟩ := hd
    by_cases hk : k0 = k
    · subst hk
      simp [dictSet, dictGet, Ne.symm h]
    · by_cases hk' : k0 = k'
      · subst hk'
        simp [dictSet, dictGet, hk, h]
      · simp [dictSet, dictGet, hk, hk', ih]

theorem dictSet_absent (m : StatusMap) (k v : String)
    (h : dictGet m k = none) : dictSet m k v = m ++ [(k, v)] := by
  induction m with
  | nil => rfl
  | cons hd tl ih =>
    obtain ⟨k0, v0⟩ := hd
    by_cases hk : k0 = k
    · simp [dictGet, hk] at h
    · simp only [dictGet, hk, if_neg hk] at h
      simp [dictSet, hk, ih h]

/-- C1 counterexample: update_job_status applied to a job already in the
terminal state done silently overwrites it with queued; no
InvalidTransition is signalled and the transition out of the terminal
state is applied. -/
theorem C1_cex :
    update_job_status (some [("j", "done")]) "j" "queued" =
      [("j", "queued")] := rfl

/-- C1 amended: update_job_status performs no transition validation at
all.  For every prior file contents, job id and requested status, the call
unconditionally sets the entry for the job id to the requested status, in
particular also when the prior status is terminal. -/
theorem C1_update_unconditional (file : Option StatusMap)
    (job_id state : String) :
    dictGet (update_job_status file job_id state) job_id = some state :=
  dictGet_dictSet_self _ _ _

/-- C5 counterexample: for an id absent from the store (here the status
file does not even exist), update_job_status does not fail with NotFound
and does not leave the store unchanged: it creates a fresh record for the
id. -/
theorem C5_cex :
    update_job_status none "x" "queued" = [("x", "queued")] := rfl

/-- C5 amended: for every job id not present in the store,
update_job_status(id, state) succeeds and creates a new record for that
id, appending the binding at the end of the mapping; it never fails with
NotFound. -/
theorem C5_update_creates (file : Option StatusMap) (job_id state : String)
    (h : dictGet (load_status file) job_id = none) :
    update_job_status file job_id state =
      load_status file ++ [(job_id, state)] :=
  dictSet_absent _ _ _ h

/-- C5 witness: the amended claim at the concrete absent id "x" with no
status file. -/
theorem C5_witness :
    dictGet (load_status none) "x" = none ∧
      update_job_status none "x" "queued" =
        load_status none ++ [("x", "queued")] :=
  ⟨rfl, C5_update_creates none "x" "queued" rfl⟩

/-- C7: for every persisted mapping state (including an absent status
file) and every job id with no entry in the mapping, get_job_status
returns the string "not_found".  The embedding is a total function, so no
exception can be raised. -/
theorem C7_unknown_id_not_found (file : Option StatusMap) (job_id : String)
    (h : dictGet (load_status file) job_id = none) :
    get_job_status file job_id = "not_found" := by
  unfold get_job_status
  rw [h]
  rfl

/-- C7 witness: the concrete id "z" when the status file does not exist. -/
theorem C7_witness :
    dictGet (load_status none) "z" = none ∧
      get_job_status none "z" = "not_found" :=
  ⟨rfl, C7_unknown_id_not_found none "z" rfl⟩

/-- C10: update_job_status changes only the entry of the given job id;
the entry of every other id in the prior mapping is unchanged. -/
theorem C10_update_frame (file : Option StatusMap)
    (job_id state k : String) (h : k ≠ job_id) :
    dictGet (update_job_status file job_id state) k =
      dictGet (load_status file) k :=
  dictGet_dictSet_ne _ _ _ _ h

/-- C10 witness: updating job "b" leaves the entry of job "a" intact. -/
theorem C10_witness :
    "a" ≠ "b" ∧
      dictGet (update_job_status (some [("a", "queued")]) "b" "done") "a" =
        dictGet (load_status (some [("a", "queued")])) "a" :=
  ⟨by decide, C10_update_frame (some [("a", "queued")]) "b" "done" "a"
    (by decide)⟩

/-- File-system level state observable by a polling client: the status
file, the persisted transcript files keyed by job id, and the media files
present in the transcript directory. -/
structure FSState where
  statusFile : Option StatusMap
  transcripts : StatusMap
  mediaFiles : List String
deriving DecidableEq

/-- Outcome of the transcript write at youtube_jobs.py lines 45-46:
success, a failing open (no file is created), or a write that raises
after open("w") already created and truncated the file, which leaves the
file persisted holding whatever content was written before the
exception. -/
inductive WriteOutcome where
  | ok
  | openFail (e : String)
  | writeFail (e : String) (written : String)
deriving DecidableEq

/-- Oracle for the fallible operations of the asynchronous pipeline
transcribe_youtube_video (youtube_jobs.py lines 29-51), in source order:
the status write to processing, the yt_dlp download, the whisper
transcription, the transcript file write, and the status write to done
(the same fallible update_job_status call as the processing write).  An
error value is the message str(e) of the raised exception.  The
status-recording call inside the except handler is modelled as
succeeding; if it raised, the exception would escape into the background
thread and no status at all would be recorded. -/
structure PipelineEnv where
  processingUpdate : Except String Unit
  fetchResult : Except String String
  transcribeResult : Except String String
  writeResult : WriteOutcome
  doneUpdate : Except String Unit

/-- The five pipeline operations, for stating ordering properties. -/
inductive Step where
  | setProcessing
  | fetchMedia
  | runTranscribe
  | persistTranscript
  | setDone
deriving DecidableEq

/-- Outcome of one pipeline execution: the final file-system state, the
list of operations that completed, and the intermediate states observable
after each completed operation. -/
structure RunResult where
  final : FSState
  trace : List Step
  mids : List FSState
deriving DecidableEq

/-- Effect of one update_job_status call on the file-system state. -/
def setStatus (st : FSState) (job_id state : String) : FSState :=
  { st with statusFile := some (update_job_status st.statusFile job_id state) }

/-- transcribe_youtube_video (youtube_jobs.py lines 29-51).  The body runs
update_job_status(processing), the yt_dlp download (which leaves the
downloaded audio file in the transcript directory), model.transcribe, the
transcript file write, and update_job_status(done), in that order; the
surrounding try/except catches any exception e raised by those steps and
runs update_job_status(job_id, "error: " ++ str(e)) instead of
propagating it. -/
def transcribe_youtube_video (env : PipelineEnv) (st : FSState)
    (job_id : String) : RunResult :=
  match env.processingUpdate with
  | .error e => ⟨setStatus st job_id ("error: " ++ e), [], []⟩
  | .ok _ =>
    let st1 := setStatus st job_id "processing"
    match env.fetchResult with
    | .error e => ⟨setStatus st1 job_id ("error: " ++ e),
        [.setProcessing], [st1]⟩
    | .ok path =>
      let st2 := { st1 with mediaFiles := path :: st1.mediaFiles }
      match env.transcribeResult with
      | .error e => ⟨setStatus st2 job_id ("error: " ++ e),
          [.setProcessing, .fetchMedia], [st1, st2]⟩
      | .ok transcript =>
        match env.writeResult with
        | .openFail e => ⟨setStatus st2 job_id ("error: " ++ e),
            [.setProcessing, .fetchMedia, .runTranscribe], [st1, st2, st2]⟩
        | .writeFail e w =>
          let stp := { st2 with
            transcripts := dictSet st2.transcripts job_id w }
          ⟨setStatus stp job_id ("error: " ++ e),
            [.setProcessing, .fetchMedia, .runTranscribe], [st1, st2, st2]⟩
        | .ok =>
          let st3 := { st2 with
            transcripts := dictSet st2.transcripts job_id transcript }
          match env.doneUpdate with
          | .error e => ⟨setStatus st3 job_id ("error: " ++ e),
              [.setProcessing, .fetchMedia, .runTranscribe,
               .persistTranscript],
              [st1, st2, st2, st3]⟩
          | .ok _ =>
            let st4 := setStatus st3 job_id "done"
            ⟨st4,
             [.setProcessing, .fetchMedia, .runTranscribe,
              .persistTranscript, .setDone],
             [st1, st2, st2, st3, st4]⟩

/-- The message of the first exception raised by the pipeline steps, in
source order, if any step fails. -/
def firstError (env : PipelineEnv) : Option String :=
  match env.processingUpdate with
  | .error e => some e
  | .ok _ =>
    match env.fetchResult with
    | .error e => some e
    | .ok _ =>
      match env.transcribeResult with
      | .error e => some e
      | .ok _ =>
        match env.writeResult with
        | .openFail e => some e
        | .writeFail e _ => some e
        | .ok =>
          match env.doneUpdate with
          | .error e => some e
          | .ok _ => none

/-- The five pipeline operations in source order. -/
def pipelineSteps : List Step :=
  [.setProcessing, .fetchMedia, .runTranscribe, .persistTranscript, .setDone]

/-- How many pipeline operations complete under a given oracle: the steps
before the first failing one, or all five when nothing fails. -/
def stepsRun (env : PipelineEnv) : Nat :=
  match env.processingUpdate with
  | .error _ => 0
  | .ok _ =>
    match env.fetchResult with
    | .error _ => 1
    | .ok _ =>
      match env.transcribeResult with
      | .error _ => 2
      | .ok _ =>
        match env.writeResult with
        | .openFail _ => 3
        | .writeFail _ _ => 3
        | .ok =>
          match env.doneUpdate with
          | .error _ => 4
          | .ok _ => 5


theorem error_append_ne (e s : String) (hs : s.data.head? ≠ some 'e') :
    "error: " ++ e ≠ s := by
  intro h
  apply hs
  rw [← h]
  obtain ⟨l⟩ := e
  rfl

/-- Oracle in which every step succeeds. -/
def envAllOk : PipelineEnv :=
  ⟨.ok (), .ok "media.mp3", .ok "hello world", .ok, .ok ()⟩

/-- Oracle in which the yt_dlp download raises with message boom. -/
def envFetchFail : PipelineEnv :=
  ⟨.ok (), .error "boom", .ok "hello world", .ok, .ok ()⟩

/-- Oracle in which the transcript write raises after open("w") already
created the file, with the content written so far empty. -/
def envWriteFail : PipelineEnv :=
  ⟨.ok (), .ok "media.mp3", .ok "hello world", .writeFail "disk full" "",
   .ok ()⟩

/-- Oracle in which the final update_job_status(job_id, "done") call at
youtube_jobs.py line 48 raises. -/
def envDoneFail : PipelineEnv :=
  ⟨.ok (), .ok "media.mp3", .ok "hello world", .ok, .error "disk full"⟩

/-- Initial state: no status file, no transcripts, no media files. -/
def st0 : FSState := ⟨none, [], []⟩

/-- C2: whenever any pipeline step raises an exception with message e, the
pipeline completes normally (the embedding is a total function, so nothing
propagates to the caller) and the final persisted status of the job is
"error: " ++ e, which in particular is not "processing". -/
theorem C2_pipeline_records_error (env : PipelineEnv) (st : FSState)
    (job_id e : String) (h : firstError env = some e) :
    get_job_status
        (transcribe_youtube_video env st job_id).final.statusFile job_id =
      "error: " ++ e ∧
    get_job_status
        (transcribe_youtube_video env st job_id).final.statusFile job_id ≠
      "processing" := by
  have hp : ∀ e' : String, "error: " ++ e' ≠ "processing" :=
    fun e' => error_append_ne e' "processing" (by decide)
  obtain ⟨pu, fr, tr, wr, du⟩ := env
  cases pu <;> cases fr <;> cases tr <;> cases wr <;> cases du <;>
    simp_all [transcribe_youtube_video, firstError, setStatus,
      get_job_status, update_job_status, load_status, dictGet_dictSet_self]

/-- C2 witness: a failing download with message boom yields final status
"error: boom". -/
theorem C2_witness :
    firstError envFetchFail = some "boom" ∧
    (get_job_status
        (transcribe_youtube_video envFetchFail st0 "j").final.statusFile "j" =
      "error: " ++ "boom" ∧
     get_job_status
        (transcribe_youtube_video envFetchFail st0 "j").final.statusFile "j" ≠
      "processing") :=
  ⟨rfl, C2_pipeline_records_error envFetchFail st0 "j" "boom" rfl⟩

/-- C4: the operations executed by one pipeline run are exactly the
prefix of setProcessing, fetchMedia, runTranscribe, persistTranscript,
setDone that ends at the first failing step: the steps run strictly in
source order, and once a step fails no later step runs. -/
theorem C4_steps_in_order (env : PipelineEnv) (st : FSState)
    (job_id : String) :
    (transcribe_youtube_video env st job_id).trace =
      pipelineSteps.take (stepsRun env) := by
  obtain ⟨pu, fr, tr, wr, du⟩ := env
  cases pu <;> cases fr <;> cases tr <;> cases wr <;> cases du <;> rfl

/-- The reachable pipeline state right after the transcript write in the
fully successful run from the empty state. -/
def afterWriteState : FSState :=
  (transcribe_youtube_video envAllOk st0 "j").mids.getD 3 st0

/-- C3 counterexample: the persisted-transcript-iff-done claim fails both
mid-run and at completion.  In the fully successful run, the reachable
state right after the transcript write has the persisted transcript while
the persisted status is still "processing" (line 45 writes the file
before line 48 marks the job done).  And at completion: a transcript
write that raises after open("w") already created the file, and a failing
done update at line 48, each leave the transcript artifact persisted
while the terminal status is an error. -/
theorem C3_cex :
    (dictGet afterWriteState.transcripts "j" = some "hello world" ∧
     get_job_status afterWriteState.statusFile "j" = "processing") ∧
    (dictGet (transcribe_youtube_video envWriteFail st0 "j").final.transcripts
        "j" = some "" ∧
     get_job_status (transcribe_youtube_video envWriteFail st0 "j").final.statusFile
        "j" = "error: disk full") ∧
    (dictGet (transcribe_youtube_video envDoneFail st0 "j").final.transcripts
        "j" = some "hello world" ∧
     get_job_status (transcribe_youtube_video envDoneFail st0 "j").final.statusFile
        "j" = "error: disk full") :=
  ⟨⟨rfl, rfl⟩, ⟨rfl, rfl⟩, ⟨rfl, rfl⟩⟩

/-- C3 amended: only the status-done half of the claim survives.  In
every state reachable during or at completion of a pipeline run (the
intermediate states and the final state), if the persisted status of the
job is "done" then the transcript of the job is persisted, because line
48 records done only after line 45 persisted the transcript.  The other
half fails, per the counterexample: the persisted transcript can coexist
with status processing mid-run, and with a terminal error status when the
write raises after creating the file or the done update itself raises. -/
theorem C3_done_implies_transcript (env : PipelineEnv) (st : FSState)
    (job_id : String) :
    ∀ s ∈ (transcribe_youtube_video env st job_id).mids ++
        [(transcribe_youtube_video env st job_id).final],
      get_job_status s.statusFile job_id = "done" →
      (dictGet s.transcripts job_id).isSome = true := by
  have hd : ∀ e' : String, "error: " ++ e' ≠ "done" :=
    fun e' => error_append_ne e' "done" (by decide)
  obtain ⟨pu, fr, tr, wr, du⟩ := env
  cases pu <;> cases fr <;> cases tr <;> cases wr <;> cases du <;>
    simp_all [transcribe_youtube_video, setStatus, get_job_status,
      update_job_status, load_status, dictGet_dictSet_self,
      List.forall_mem_cons]

/-- C3 witness: in the fully successful run, the final state is among the
reachable states, its status is done, and its transcript is persisted. -/
theorem C3_witness :
    (transcribe_youtube_video envAllOk st0 "j").final ∈
        (transcribe_youtube_video envAllOk st0 "j").mids ++
          [(transcribe_youtube_video envAllOk st0 "j").final] ∧
    get_job_status
        (transcribe_youtube_video envAllOk st0 "j").final.statusFile "j" =
      "done" ∧
    (dictGet (transcribe_youtube_video envAllOk st0 "j").final.transcripts
        "j").isSome = true :=
  ⟨by decide, rfl,
   C3_done_implies_transcript envAllOk st0 "j"
     (transcribe_youtube_video envAllOk st0 "j").final (by decide) rfl⟩

/-- Python truthiness of os.getenv output: None and the empty string are
falsy, every other string is truthy. -/
def pyTruthy : Option String → Bool
  | none => false
  | some v => !(v == "")

/-- verify_api_key (whisper_api.py lines 46-50): reads WHISPER_API_KEY
from the environment and raises HTTPException 403 when the configured key
is falsy or differs from the supplied X-API-Key header.  The result is
some 403 when the request is rejected and none when it passes. -/
def verify_api_key (expected_key : Option String) (x_api_key : String) :
    Option Nat :=
  if !pyTruthy expected_key || !(some x_api_key == expected_key) then
    some 403
  else
    none

/-- C8: verify_api_key rejects with 403 exactly when the configured key
is unset or empty or the supplied header differs from it, and passes
exactly when the configured key is set, non-empty, and equal to the
header. -/
theorem C8_verify_api_key_spec (e : Option String) (x : String) :
    (verify_api_key e x = some 403 ↔
      (e = none ∨ e = some "" ∨ e ≠ some x)) ∧
    (verify_api_key e x = none ↔ (e = some x ∧ x ≠ "")) := by
  cases e with
  | none => simp [verify_api_key, pyTruthy]
  | some k =>
    by_cases hk : k = ""
    · subst hk
      by_cases hx : x = ""
      · subst hx
        simp [verify_api_key, pyTruthy]
      · simp [verify_api_key, pyTruthy, hx, Ne.symm hx]
    · by_cases hx : x = k
      · subst hx
        simp [verify_api_key, pyTruthy, hk]
      · simp [verify_api_key, pyTruthy, hk, hx, Ne.symm hx]

/-- The supported audio extensions (whisper_api.py line 36). -/
def SUPPORTED_FORMATS : List String :=
  [".mp3", ".wav", ".m4a", ".flac", ".ogg", ".wma", ".aac"]

/-- Maximum upload size in bytes (whisper_api.py line 37). -/
def MAX_FILE_SIZE : Nat := 100 * 1024 * 1024

/-- The accepted whisper model names (whisper_api.py line 95). -/
def valid_models : List String :=
  ["tiny", "base", "small", "medium", "large"]

/-- Split a character list on a separator character, keeping empty
groups, like str.split. -/
def splitOnChar (c : Char) : List Char → List (List Char)
  | [] => [[]]
  | a :: rest =>
    match splitOnChar c rest with
    | [] => [[a]]
    | g :: gs => if a = c then [] :: g :: gs else (a :: g) :: gs

/-- The final component of a path as pathlib computes it: empty and
single-dot components are dropped, the last remaining component is the
name. -/
def pathName (filename : String) : List Char :=
  ((splitOnChar '/' filename.data).filter
    (fun p => !(p == []) && !(p == ['.']))).getLastD []

/-- Index of the last occurrence of a character in a list, if any. -/
def rfindIdx (cs : List Char) (c : Char) : Option Nat :=
  match cs with
  | [] => none
  | a :: rest =>
    match rfindIdx rest c with
    | some i => some (i + 1)
    | none => if a = c then some 0 else none

/-- pathlib PurePath.suffix of the filename: the substring of the name
from its last dot, provided that dot is neither the first nor the last
character of the name; empty otherwise. -/
def pathSuffix (filename : String) : String :=
  let name := pathName filename
  match rfindIdx name '.' with
  | none => ""
  | some i =>
    if 0 < i ∧ i + 1 < name.length then String.mk (name.drop i) else ""

/-- Python str.lower for the ASCII alphabet. -/
def pyLower (s : String) : String :=
  String.mk (s.data.map Char.toLower)

/-- Oracle for the two fallible operations of the synchronous upload
handler: reading the uploaded content (await file.read) and the
transcription of the saved temporary file.  An error value carries the
exception message. -/
structure UploadEnv where
  readResult : Except String String
  transcribeResult : Except String String

/-- The HTTP outcome of the synchronous handler: an HTTPException status
code, or a successful transcript response. -/
inductive ApiResult where
  | httpError (code : Nat)
  | ok (transcript : String)
deriving DecidableEq

/-- Observable outcome of one invocation of the synchronous handler: the
HTTP result, whether the transcription provider was invoked, whether a
temporary file was created, whether it was deleted before returning, and
the job-status store after the call (the handler never touches it). -/
structure SyncRun where
  result : ApiResult
  invokedTranscriber : Bool
  tempCreated : Bool
  tempDeleted : Bool
  storeAfter : Option StatusMap
deriving DecidableEq

def exceptOk {ε α : Type} : Except ε α → Bool
  | .ok _ => true
  | .error _ => false

/-- transcribe_audio (whisper_api.py lines 59-150).  Validation in source
order: empty filename (400), unsupported lowercased extension (400),
oversized upload (413), unknown model name (400).  Then a temporary file
is created and the body runs under try/finally: if reading the upload
raises, the temp_path variable is never bound, so the cleanup in the
finally block raises and is swallowed, leaking the temporary file; once
temp_path is bound, the finally block deletes the file on both the
success and the failure path.  Size truthiness follows Python: a None or
zero size skips the size check. -/
def transcribe_audio (filename : String) (size : Option Nat)
    (model : String) (env : UploadEnv) (store : Option StatusMap) :
    SyncRun :=
  if filename = "" then
    ⟨.httpError 400, false, false, false, store⟩
  else
    let file_ext := pyLower (pathSuffix filename)
    if file_ext ∉ SUPPORTED_FORMATS then
      ⟨.httpError 400, false, false, false, store⟩
    else if (match size with
             | some s => decide (s ≠ 0) && decide (MAX_FILE_SIZE < s)
             | none => false) then
      ⟨.httpError 413, false, false, false, store⟩
    else if model ∉ valid_models then
      ⟨.httpError 400, false, false, false, store⟩
    else
      match env.readResult with
      | .error _ => ⟨.httpError 500, false, true, false, store⟩
      | .ok _ =>
        match env.transcribeResult with
        | .error _ => ⟨.httpError 500, true, true, true, store⟩
        | .ok t => ⟨.ok t, true, true, true, store⟩

/-- C9: whenever the lowercased extension of the uploaded filename is not
in the supported set, the synchronous handler answers 400, never invokes
the transcription provider, and leaves the job store untouched. -/
theorem C9_unsupported_ext_rejected (filename : String) (size : Option Nat)
    (model : String) (env : UploadEnv) (store : Option StatusMap)
    (h : pyLower (pathSuffix filename) ∉ SUPPORTED_FORMATS) :
    (transcribe_audio filename size model env store).result =
        ApiResult.httpError 400 ∧
    (transcribe_audio filename size model env store).invokedTranscriber =
        false ∧
    (transcribe_audio filename size model env store).storeAfter = store := by
  by_cases hf : filename = "" <;> simp [transcribe_audio, hf, h]

/-- An upload oracle in which reading and transcribing both succeed. -/
def uploadEnvOk : UploadEnv := ⟨.ok "bytes", .ok "a transcript"⟩

/-- C9 witness: a .txt upload is rejected with 400 and the provider is
never invoked. -/
theorem C9_witness :
    pyLower (pathSuffix "clip.txt") ∉ SUPPORTED_FORMATS ∧
    ((transcribe_audio "clip.txt" none "base" uploadEnvOk none).result =
        ApiResult.httpError 400 ∧
     (transcribe_audio "clip.txt" none "base" uploadEnvOk none).invokedTranscriber =
        false ∧
     (transcribe_audio "clip.txt" none "base" uploadEnvOk none).storeAfter =
        none) :=
  ⟨by decide,
   C9_unsupported_ext_rejected "clip.txt" none "base" uploadEnvOk none
     (by decide)⟩

/-- An upload oracle in which reading the uploaded content raises. -/
def uploadEnvReadFail : UploadEnv := ⟨.error "io failure", .ok "a transcript"⟩

/-- C6 counterexample: the asynchronous pipeline never removes the audio
file downloaded into the transcript directory — after a fully successful
run from the empty state the file is still present — and the synchronous
handler leaks its temporary file when reading the upload raises, because
the temp_path variable is only bound after the read. -/
theorem C6_cex :
    (transcribe_youtube_video envAllOk st0 "j").final.mediaFiles =
        ["media.mp3"] ∧
    (transcribe_audio "a.mp3" none "base" uploadEnvReadFail none).tempCreated =
        true ∧
    (transcribe_audio "a.mp3" none "base" uploadEnvReadFail none).tempDeleted =
        false := by
  refine ⟨rfl, ?_, ?_⟩ <;> decide

/-- C6 amended: the synchronous upload endpoint deletes its temporary
file exactly when it created one and the uploaded content was
successfully read (so on both the transcription-success and the
transcription-failure path, but not when the read itself raises), while
the asynchronous pipeline never removes any media file: every media file
present before a pipeline run, and the one it downloads, is still present
in its final state. -/
theorem C6_cleanup (filename : String) (size : Option Nat) (model : String)
    (env : UploadEnv) (store : Option StatusMap) (penv : PipelineEnv)
    (st : FSState) (job_id f : String) (hf : f ∈ st.mediaFiles) :
    (transcribe_audio filename size model env store).tempDeleted =
      ((transcribe_audio filename size model env store).tempCreated &&
        exceptOk env.readResult) ∧
    f ∈ (transcribe_youtube_video penv st job_id).final.mediaFiles := by
  constructor
  · unfold transcribe_audio
    obtain ⟨rr, tr⟩ := env
    by_cases h1 : filename = "" <;>
      by_cases h2 : pyLower (pathSuffix filename) ∈ SUPPORTED_FORMATS <;>
      by_cases h4 : model ∈ valid_models <;>
      cases rr <;> cases tr <;>
      simp [h1, h2, h4, exceptOk] <;>
      split <;> simp [exceptOk]
  · obtain ⟨pu, fr, tr, wr, du⟩ := penv
    cases pu <;> cases fr <;> cases tr <;> cases wr <;> cases du <;>
      simp_all [transcribe_youtube_video, setStatus, List.mem_cons]

/-- C6 witness: the amended claim at a concrete run whose initial state
already holds one media file. -/
theorem C6_witness :
    "old.mp3" ∈ (FSState.mk none [] ["old.mp3"]).mediaFiles ∧
    ((transcribe_audio "a.mp3" none "base" uploadEnvOk none).tempDeleted =
      ((transcribe_audio "a.mp3" none "base" uploadEnvOk none).tempCreated &&
        exceptOk uploadEnvOk.readResult) ∧
     "old.mp3" ∈ (transcribe_youtube_video envAllOk
        (FSState.mk none [] ["old.mp3"]) "j").final.mediaFiles) :=
  ⟨by decide,
   C6_cleanup "a.mp3" none "base" uploadEnvOk none envAllOk
     (FSState.mk none [] ["old.mp3"]) "j" "old.mp3" (by decide)⟩
